import Mathlib

/-!
Verification development for the htmx_fastapi_user_demo authentication core.

The definitions below are a shallow embedding of the repository's Python
source.  Times are natural numbers (seconds since the epoch); a JWT is
modelled symbolically as its claims plus the key and algorithm it was signed
with, so that signature checking is key/algorithm equality.  PyJWT's `decode`
is modelled with its actual validation order (signature, then `exp`, then
`aud`) and its PyJWT-2.x audience rules.  The persistent store is a list of
user records, with `session.get` / `get_by_email` as first-match lookups.
-/

namespace HtmxAuth

/-- JWT claims payload as used by this repository: `sub`, `exp`, `type`
(for verification tokens) and `aud` (for session tokens).
Mirrors the dictionaries built in `src/auth/local.py` and
`src/auth/utils.py`. -/
structure Claims where
  sub : Option String
  exp : Option Nat
  type : Option String
  aud : Option String
deriving DecidableEq, Repr

/-- A signed token: the claims plus the signing key and algorithm recorded
at encoding time (`jwt.encode(payload, key, algorithm)`).  Signature
verification succeeds exactly when key and algorithm match. -/
structure Token where
  claims : Claims
  key : String
  alg : String
deriving DecidableEq, Repr

/-- Failure modes of PyJWT's `jwt.decode`; all of them are subclasses of
`jwt.PyJWTError` in the source. -/
inductive JwtError where
  | invalidAlgorithm
  | invalidSignature
  | expiredSignature
  | invalidAudience
deriving DecidableEq, Repr

/-- PyJWT 2.x audience validation (`_validate_aud`): if the caller supplies
no audience but the token carries an `aud` claim, or supplies an audience
that the token does not match, validation fails. -/
def jwtCheckAud (c : Claims) (audience : Option String) : Except JwtError Claims :=
  match audience, c.aud with
  | none, none => Except.ok c
  | none, some _ => Except.error JwtError.invalidAudience
  | some _, none => Except.error JwtError.invalidAudience
  | some a, some ca => if ca = a then Except.ok c else Except.error JwtError.invalidAudience

/-- Model of `jwt.decode(token, key, algorithms=[alg], audience=audience)`
at time `now`: verify the signature (key and algorithm), then `exp`
(expired when `exp <= now`, PyJWT's boundary with zero leeway), then the
audience, in PyJWT's order. -/
def jwtDecode (tok : Token) (key alg : String) (audience : Option String) (now : Nat) :
    Except JwtError Claims :=
  if tok.alg ≠ alg then Except.error JwtError.invalidAlgorithm
  else if tok.key ≠ key then Except.error JwtError.invalidSignature
  else match tok.claims.exp with
    | some e => if e ≤ now then Except.error JwtError.expiredSignature
                else jwtCheckAud tok.claims audience
    | none => jwtCheckAud tok.claims audience

/-- The authentication-relevant part of `config.Settings`
(`src/config.py`): signing key and algorithm. -/
structure Settings where
  SECRET_KEY : String
  JWT_ALGORITHM : String
deriving DecidableEq, Repr

/-- A row of the `users` table (`src/models.py`). -/
structure User where
  id : Int
  email : String
  hashed_password : Option String
  is_active : Bool
  is_superuser : Bool
  is_verified : Bool
  name : Option String
  picture : Option String
deriving DecidableEq, Repr

/-- The persistent account store, modelled as the list of rows of the
`users` table. -/
abbrev DB := List User

/-- Lower-casing of an email string, character by character (the model of
Python's `str.lower()` and SQL's `lower()` on the ASCII emails this
development evaluates). -/
def pyLower (s : String) : String := ⟨s.data.map Char.toLower⟩

/-- Model of fastapi-users' `SQLAlchemyUserDatabase.get_by_email`, which
compares emails case-insensitively (`func.lower(email) == email.lower()`). -/
def get_by_email (db : DB) (email : String) : Option User :=
  db.find? (fun u => pyLower u.email == pyLower email)

/-- Model of `session.get(User, id)`: primary-key lookup. -/
def get_by_id (db : DB) (i : Int) : Option User :=
  db.find? (fun u => u.id == i)

/-- Committing a mutated ORM row: replace the (first) row with the same
primary key. -/
def db_update : DB → User → DB
  | [], _ => []
  | u :: rest, u' => if u.id == u'.id then u' :: rest else u :: db_update rest u'

/-- Fresh primary key for an inserted row: one more than the largest id in
the table (autoincrement). -/
def next_id (db : DB) : Int :=
  db.foldl (fun m u => max m u.id) 0 + 1

/-! ### Model of Python `int(s)` on strings

`verify_email` runs `int(user_id)` on the token's `sub` claim, and
fastapi-users' `IntegerIDMixin.parse_id` does the same for session tokens.
Python's `int` strips surrounding whitespace, accepts an optional sign
followed by one or more ASCII digits, and raises `ValueError` otherwise
(digit-group underscores, an edge Python also accepts, are outside the
inputs this development evaluates the model on). -/

/-- Decimal value of a list of digit characters,
most-significant first. -/
def pyDigitsVal (cs : List Char) : Nat :=
  cs.foldl (fun n c => n * 10 + (c.toNat - 48)) 0

/-- Strip leading and trailing whitespace from a character list. -/
def pyStrip (cs : List Char) : List Char :=
  ((cs.dropWhile Char.isWhitespace).reverse.dropWhile Char.isWhitespace).reverse

/-- Model of Python `int(s)` for a string `s`: `some` of the parsed value,
or `none` where Python raises `ValueError`. -/
def pyIntOfString (s : String) : Option Int :=
  match pyStrip s.data with
  | [] => none
  | c :: rest =>
    if c = '-' then
      if rest ≠ [] ∧ rest.all Char.isDigit then some (-(pyDigitsVal rest : Int)) else none
    else if c = '+' then
      if rest ≠ [] ∧ rest.all Char.isDigit then some ((pyDigitsVal rest : Int)) else none
    else if (c :: rest).all Char.isDigit then some ((pyDigitsVal (c :: rest) : Int)) else none

example : pyIntOfString "42" = some 42 := by decide
example : pyIntOfString "-7" = some (-7) := by decide
example : pyIntOfString "abc" = none := by decide
example : pyIntOfString "" = none := by decide
example : pyIntOfString " 13 " = some 13 := by decide

/-! ### Token minting (`src/auth/local.py`, `src/auth/utils.py`) -/

/-- Model of `generate_verification_token(user_id)`
(`src/auth/local.py` lines 26-37): payload
`{"sub": str(user_id), "exp": now + 24h, "type": "verification"}`,
encoded with `settings.SECRET_KEY` and `settings.JWT_ALGORITHM`. -/
def generate_verification_token (settings : Settings) (now : Nat) (user_id : Int) : Token :=
  { claims := { sub := some (toString user_id), exp := some (now + 24 * 3600),
                type := some "verification", aud := none },
    key := settings.SECRET_KEY,
    alg := settings.JWT_ALGORITHM }

/-- Model of fastapi-users' `generate_jwt(data, secret, lifetime_seconds)`:
copy the payload, set `exp = now + lifetime_seconds`, and encode with the
default algorithm `"HS256"`. -/
def generate_jwt (data : Claims) (secret : String) (lifetime_seconds : Nat) (now : Nat) : Token :=
  { claims := { data with exp := some (now + lifetime_seconds) },
    key := secret,
    alg := "HS256" }

/-- The response produced by `create_auth_cookie_response`
(`src/auth/utils.py`): a redirect carrying the session token in the
`auth` cookie. -/
structure AuthCookieResponse where
  token : Token
  redirect_url : String
  cookie_name : String
  max_age : Nat
  http_only : Bool
  same_site : String
deriving DecidableEq, Repr

/-- Model of `create_auth_cookie_response(user_id)`
(`src/auth/utils.py` lines 7-40): mint a session JWT with payload
`{"sub": str(user_id), "aud": "fastapi-users:auth"}` and lifetime 3600
seconds, and set it as the `auth` cookie on a redirect to `/dashboard`. -/
def create_auth_cookie_response (settings : Settings) (now : Nat) (user_id : Int) :
    AuthCookieResponse :=
  { token := generate_jwt
      { sub := some (toString user_id), exp := none, type := none,
        aud := some "fastapi-users:auth" }
      settings.SECRET_KEY 3600 now,
    redirect_url := "/dashboard",
    cookie_name := "auth",
    max_age := 3600,
    http_only := true,
    same_site := "lax" }

/-- Model of fastapi-users' `JWTStrategy.read_token` as configured by
`get_jwt_strategy` (`src/users.py` lines 133-138): decode the token with
`settings.SECRET_KEY`, `settings.JWT_ALGORITHM` and audience
`"fastapi-users:auth"`; read `sub`, parse it with `int` (the
`IntegerIDMixin.parse_id`), and look the user up by id; `none` on any
failure. -/
def jwt_strategy_read_token (settings : Settings) (db : DB) (now : Nat) (tok : Token) :
    Option User :=
  match jwtDecode tok settings.SECRET_KEY settings.JWT_ALGORITHM (some "fastapi-users:auth") now with
  | Except.error _ => none
  | Except.ok data =>
    match data.sub with
    | none => none
    | some s =>
      match pyIntOfString s with
      | none => none
      | some i => get_by_id db i

/-! ### The verify endpoint (`src/main.py` lines 303-378) -/

/-- User-visible outcome of the `/auth/verify` endpoint: the `verify.html`
template rendered either with an error message or with `success = True`. -/
inductive VerifyResponse where
  | errorPage (msg : String)
  | successPage
deriving DecidableEq, Repr

/-- Model of the `verify_email` route (`src/main.py` lines 303-378):
decode the token with no expected audience; reject when `type` is not
`"verification"` or `sub` is missing/empty; parse `sub` with `int`
(a `ValueError` there escapes the inner `except jwt.PyJWTError` and is
caught by the outer handler, which renders "Verification failed"); look
the user up by id; on success set `is_verified = True` and commit. -/
def verify_email (settings : Settings) (db : DB) (now : Nat) (token : Token) :
    DB × VerifyResponse :=
  match jwtDecode token settings.SECRET_KEY settings.JWT_ALGORITHM none now with
  | Except.error _ => (db, VerifyResponse.errorPage "Invalid verification token")
  | Except.ok payload =>
    if payload.type ≠ some "verification" then
      (db, VerifyResponse.errorPage "Invalid verification token")
    else
      match payload.sub with
      | none => (db, VerifyResponse.errorPage "Invalid verification token")
      | some user_id =>
        if user_id = "" then (db, VerifyResponse.errorPage "Invalid verification token")
        else
          match pyIntOfString user_id with
          | none => (db, VerifyResponse.errorPage "Verification failed")
          | some int_id =>
            match get_by_id db int_id with
            | none => (db, VerifyResponse.errorPage "User not found")
            | some user =>
              (db_update db { user with is_verified := true }, VerifyResponse.successPage)

/-! ### Local login (`src/auth/local.py` lines 208-293) -/

/-- User-visible outcome of `POST /auth/local/login`: an error template
(template name and error string as in the source) or a successful
authentication response. -/
inductive LoginResponse where
  | errorPage (template : String) (error : String)
  | loginSuccess (resp : AuthCookieResponse)
deriving DecidableEq, Repr

/-- Model of the `login_user` route (`src/auth/local.py` lines 208-293).
`verify_and_update` stands for
`password_helper.verify_and_update(password, hash)` and returns
`(verified, updated_hash?)`; when it supplies an updated hash the source
commits it before the active/verified checks.  The checks run in source
order: user exists and has a hash, password verifies, `is_active`,
`is_verified`, then the auth cookie is issued. -/
def login_user (settings : Settings) (db : DB) (now : Nat)
    (verify_and_update : String → String → Bool × Option String)
    (email password : String) : DB × LoginResponse :=
  match get_by_email db email with
  | none => (db, LoginResponse.errorPage "local_login.html" "Invalid email or password")
  | some user =>
    match user.hashed_password with
    | none => (db, LoginResponse.errorPage "local_login.html" "Invalid email or password")
    | some h =>
      let vu := verify_and_update password h
      if ¬ vu.1 then (db, LoginResponse.errorPage "local_login.html" "Invalid email or password")
      else
        let db1 := match vu.2 with
          | some nh => db_update db { user with hashed_password := some nh }
          | none => db
        if ¬ user.is_active then
          (db1, LoginResponse.errorPage "local_login.html" "Account is inactive")
        else if ¬ user.is_verified then
          (db1, LoginResponse.errorPage "verify.html" "Please verify your email before logging in.")
        else
          (db1, LoginResponse.loginSuccess (create_auth_cookie_response settings now user.id))

/-! ### Provider callbacks: find-or-create cores
(`src/auth/google.py` lines 72-99, `src/auth/vipps.py` lines 96-124) -/

/-- Model of the Google callback's find-or-create block
(`src/auth/google.py` lines 72-99), after the email/name/picture have been
extracted from the provider's profile (`name` and `picture` may be absent).
If no account with that email exists, create one with no password hash,
`is_active=True`, `is_verified=True`, `is_superuser=False`; otherwise set
`user.name = name` and `user.picture = picture` unconditionally and
commit.  Returns the new table and the resolved account. -/
def google_upsert (db : DB) (email : String) (name picture : Option String) : DB × User :=
  match get_by_email db email with
  | none =>
    let new_user : User :=
      { id := next_id db, email := email, hashed_password := none,
        is_active := true, is_verified := true, is_superuser := false,
        name := name, picture := picture }
    (db ++ [new_user], new_user)
  | some user =>
    let u' := { user with name := name, picture := picture }
    (db_update db u', u')

/-- Model of the Vipps callback's find-or-create block
(`src/auth/vipps.py` lines 96-124).  At that point `name` is a string,
possibly empty (`userinfo.get('name')` or the stripped concatenation of
given and family name).  Creation stores `name or None` and no picture;
on an existing account the source updates `user.name` only under
`if name:`. -/
def vipps_upsert (db : DB) (email : String) (name : String) : DB × User :=
  match get_by_email db email with
  | none =>
    let new_user : User :=
      { id := next_id db, email := email, hashed_password := none,
        is_active := true, is_verified := true, is_superuser := false,
        name := if name = "" then none else some name, picture := none }
    (db ++ [new_user], new_user)
  | some user =>
    let u' := if name = "" then user else { user with name := some name }
    (db_update db u', u')

/-! ### Local registration (`src/auth/local.py` lines 61-195) -/

/-- User-visible outcome of `POST /auth/local/register`. -/
inductive RegisterResponse where
  | registerError (error : String)
  | verifyPage
deriving DecidableEq, Repr

/-- Model of the `register_user` route (`src/auth/local.py` lines 61-195):
reject an email without `"@"`, a password shorter than 8 characters, or an
already-registered email; otherwise create the user with
`is_verified=False`, `is_active=True`, `is_superuser=False` and the
supplied password hashed by `hash` (standing for
`password_helper.hash`), mint a verification token for the new id, and
show the verification page.  On success the third component is the
verification token generated for the new user's id and mailed out. -/
def register_user (settings : Settings) (db : DB) (now : Nat) (hash : String → String)
    (email password : String) (name : Option String) : DB × RegisterResponse × Option Token :=
  if ¬ email.contains '@' then (db, RegisterResponse.registerError "Invalid email address", none)
  else if password.length < 8 then
    (db, RegisterResponse.registerError "Password must be at least 8 characters long", none)
  else
    match get_by_email db email with
    | some _ => (db, RegisterResponse.registerError "Email already registered", none)
    | none =>
      let new_user : User :=
        { id := next_id db, email := email, hashed_password := some (hash password),
          is_active := true, is_verified := false, is_superuser := false,
          name := name, picture := none }
      (db ++ [new_user], RegisterResponse.verifyPage,
        some (generate_verification_token settings now new_user.id))

/-! ### Verification / reset request endpoints (`src/main.py` lines 169-260) -/

/-- A rendered template response for the request-stage endpoints: template
name plus the context keys the source passes. -/
structure PageResponse where
  template : String
  message : Option String
  error : Option String
  success : Option String
deriving DecidableEq, Repr

/-- Model of `POST /auth/request-verify-token` (`src/main.py` lines
169-215): look the email up; when the user exists and is unverified the
route awaits `user_manager.request_verify(user, request, background_tasks)`
inside the `try` block — `sendRaises user` says whether that awaited call
raises, in which case the `except` handler renders the `verify.html`
error page; otherwise (user verified, user absent, or the call returning
normally) the same `verify.html` page with the same message is
returned. -/
def request_verify_token (db : DB) (sendRaises : User → Bool) (email : String) :
    PageResponse :=
  match get_by_email db email with
  | some user =>
    if ¬ user.is_verified ∧ sendRaises user then
      { template := "verify.html", message := none,
        error := some "Failed to send verification email", success := none }
    else
      { template := "verify.html",
        message := some "If your email is registered, a verification link has been sent.",
        error := none, success := none }
  | none =>
    { template := "verify.html",
      message := some "If your email is registered, a verification link has been sent.",
      error := none, success := none }

/-- Model of `POST /auth/forgot-password` (`src/main.py` lines 222-260):
look the email up; when the user exists the route awaits
`user_manager.forgot_password(user, request, background_tasks)` inside the
`try` block — `sendRaises user` says whether that awaited call raises, in
which case the `except` handler renders the `reset_password.html` error
page; otherwise the same `reset_password.html` page with the same success
text is returned whether or not the user exists. -/
def forgot_password (db : DB) (sendRaises : User → Bool) (email : String) : PageResponse :=
  match get_by_email db email with
  | some user =>
    if sendRaises user then
      { template := "reset_password.html", message := none,
        error := some "Failed to send password reset email", success := none }
    else
      { template := "reset_password.html", message := none, error := none,
        success := some "If your email is registered, a password reset link has been sent." }
  | none =>
    { template := "reset_password.html", message := none, error := none,
      success := some "If your email is registered, a password reset link has been sent." }

/-- The raising behavior of the awaited send calls as the source stands:
`src/main.py` invokes `user_manager.request_verify(user, request,
background_tasks)` and `user_manager.forgot_password(user, request,
background_tasks)` with an extra positional argument, which fastapi-users'
`BaseUserManager` signatures `(user, request=None)` reject with a
`TypeError`; independently of the arity, fastapi-users raises
`UserInactive` from both methods for an inactive account.  The awaited
call therefore raises for every user it is reached with. -/
def actual_send_raises : User → Bool := fun _ => true

/-! ### The state-changing operations of the core, as one step type -/

/-- One inbound request to any modelled state-changing route of this
core. -/
inductive Op where
  | opVerify (now : Nat) (token : Token)
  | opLogin (now : Nat) (verify_and_update : String → String → Bool × Option String)
      (email password : String)
  | opGoogle (email : String) (name picture : Option String)
  | opVipps (email : String) (name : String)
  | opRegister (now : Nat) (hash : String → String) (email password : String)
      (name : Option String)
  | opRequestVerify (email : String)
  | opForgotPassword (email : String)

/-- Effect of one modelled request on the account store. -/
def apply_op (settings : Settings) (db : DB) : Op → DB
  | Op.opVerify now tok => (verify_email settings db now tok).1
  | Op.opLogin now vu email password => (login_user settings db now vu email password).1
  | Op.opGoogle email name picture => (google_upsert db email name picture).1
  | Op.opVipps email name => (vipps_upsert db email name).1
  | Op.opRegister now hash email password name =>
      (register_user settings db now hash email password name).1
  | Op.opRequestVerify _ => db
  | Op.opForgotPassword _ => db

/-! ### Decimal round trip: `int(str(i)) == i`

The token payloads carry `str(user_id)`, and the consuming endpoints parse
it back with `int`.  The lemmas below prove that the parse model inverts
Lean's decimal printer, via Mathlib's `Nat.digits`. -/

lemma digitChar_isDigit {d : Nat} (hd : d < 10) : (Nat.digitChar d).isDigit = true := by
  interval_cases d <;> decide

lemma digitChar_val {d : Nat} (hd : d < 10) : (Nat.digitChar d).toNat - 48 = d := by
  interval_cases d <;> decide

lemma isDigit_not_whitespace {c : Char} (h : c.isDigit = true) : c.isWhitespace = false := by
  cases hb : c.isWhitespace
  · rfl
  · exfalso
    have hcases : ((c = ' ' ∨ c = '\t') ∨ c = '\x0d') ∨ c = '\n' := by
      simpa [Char.isWhitespace] using hb
    rcases hcases with ((h1 | h1) | h1) | h1 <;> subst h1 <;> revert h <;> decide

lemma isDigit_ne_dash {c : Char} (h : c.isDigit = true) : ¬ c = '-' := by
  intro e; subst e; revert h; decide

lemma isDigit_ne_plus {c : Char} (h : c.isDigit = true) : ¬ c = '+' := by
  intro e; subst e; revert h; decide

lemma dropWhile_eq_self_of_head_digit {c : Char} {t : List Char} (hc : c.isDigit = true) :
    (c :: t).dropWhile Char.isWhitespace = c :: t := by
  simp [List.dropWhile_cons, isDigit_not_whitespace hc]

lemma pyStrip_digits {cs : List Char} (hne : cs ≠ []) (h : cs.all Char.isDigit = true) :
    pyStrip cs = cs := by
  obtain ⟨c, t, hct⟩ := List.exists_cons_of_ne_nil hne
  obtain ⟨c', t', hct'⟩ := List.exists_cons_of_ne_nil
    ((List.reverse_ne_nil_iff).mpr hne)
  rw [List.all_eq_true] at h
  have hc : c.isDigit = true := h c (by rw [hct]; exact List.mem_cons_self c t)
  have hc' : c'.isDigit = true :=
    h c' (List.mem_reverse.mp (by rw [hct']; exact List.mem_cons_self c' t'))
  unfold pyStrip
  rw [hct, dropWhile_eq_self_of_head_digit hc, ← hct, hct',
    dropWhile_eq_self_of_head_digit hc', ← hct', List.reverse_reverse]

lemma pyStrip_dash_digits {cs : List Char} (hne : cs ≠ []) (h : cs.all Char.isDigit = true) :
    pyStrip ('-' :: cs) = '-' :: cs := by
  obtain ⟨c, t, hct⟩ := List.exists_cons_of_ne_nil
    ((List.reverse_ne_nil_iff).mpr hne)
  rw [List.all_eq_true] at h
  have hc : c.isDigit = true :=
    h c (List.mem_reverse.mp (by rw [hct]; exact List.mem_cons_self c t))
  have hdash : ('-' :: cs).dropWhile Char.isWhitespace = '-' :: cs := by
    have : ('-').isWhitespace = false := by decide
    simp [List.dropWhile_cons, this]
  have hrev : ('-' :: cs).reverse = c :: (t ++ ['-']) := by
    rw [List.reverse_cons, hct]; simp
  unfold pyStrip
  rw [hdash, hrev, dropWhile_eq_self_of_head_digit hc, ← hrev, List.reverse_reverse]

lemma toDigitsCore_eq (fuel : Nat) : ∀ (n : Nat) (ds : List Char), n ≠ 0 → n < 10 ^ fuel →
    Nat.toDigitsCore 10 fuel n ds = ((Nat.digits 10 n).map Nat.digitChar).reverse ++ ds := by
  induction fuel with
  | zero =>
    intro n ds hn hlt
    exact absurd (Nat.lt_one_iff.mp hlt) hn
  | succ fuel ih =>
    intro n ds hn hlt
    have hdef : Nat.digits 10 n = n % 10 :: Nat.digits 10 (n / 10) :=
      Nat.digits_def' (by norm_num) (Nat.pos_of_ne_zero hn)
    have hstep : Nat.toDigitsCore 10 (fuel + 1) n ds =
        if n / 10 = 0 then Nat.digitChar (n % 10) :: ds
        else Nat.toDigitsCore 10 fuel (n / 10) (Nat.digitChar (n % 10) :: ds) := rfl
    by_cases h0 : n / 10 = 0
    · rw [hstep, if_pos h0, hdef, h0]
      simp
    · have hq : n / 10 < 10 ^ fuel := by
        rw [Nat.div_lt_iff_lt_mul (by norm_num : 0 < 10)]
        calc n < 10 ^ (fuel + 1) := hlt
          _ = 10 ^ fuel * 10 := by rw [pow_succ]
      rw [hstep, if_neg h0, ih (n / 10) _ h0 hq, hdef]
      simp

lemma foldl_digits (L : List Nat) : ∀ acc : Nat, (∀ d ∈ L, d < 10) →
    List.foldl (fun n c => n * 10 + (c.toNat - 48)) acc ((L.map Nat.digitChar).reverse)
      = acc * 10 ^ L.length + Nat.ofDigits 10 L := by
  induction L with
  | nil => intro acc _; simp [Nat.ofDigits]
  | cons d t ih =>
    intro acc h
    have hd : d < 10 := h d (List.mem_cons_self d t)
    have ht : ∀ x ∈ t, x < 10 := fun x hx => h x (List.mem_cons_of_mem d hx)
    rw [List.map_cons, List.reverse_cons, List.foldl_append, ih acc ht]
    simp only [List.foldl_cons, List.foldl_nil, Nat.ofDigits_cons, List.length_cons,
      digitChar_val hd, pow_succ]
    ring

lemma pyDigitsVal_toDigits (n : Nat) : pyDigitsVal (Nat.toDigits 10 n) = n := by
  by_cases hn : n = 0
  · subst hn; decide
  · have hlt : n < 10 ^ (n + 1) :=
      lt_of_lt_of_le (Nat.lt_pow_self (by norm_num) n)
        (Nat.pow_le_pow_right (by norm_num) (Nat.le_succ n))
    unfold Nat.toDigits pyDigitsVal
    rw [toDigitsCore_eq (n + 1) n [] hn hlt, List.append_nil,
      foldl_digits _ 0 (fun d hd => Nat.digits_lt_base (by norm_num) hd)]
    simp [Nat.ofDigits_digits]

lemma toDigits_all_digit (n : Nat) : (Nat.toDigits 10 n).all Char.isDigit = true := by
  by_cases hn : n = 0
  · subst hn; decide
  · have hlt : n < 10 ^ (n + 1) :=
      lt_of_lt_of_le (Nat.lt_pow_self (by norm_num) n)
        (Nat.pow_le_pow_right (by norm_num) (Nat.le_succ n))
    unfold Nat.toDigits
    rw [toDigitsCore_eq (n + 1) n [] hn hlt, List.append_nil, List.all_eq_true]
    intro c hc
    rw [List.mem_reverse, List.mem_map] at hc
    obtain ⟨d, hd, rfl⟩ := hc
    exact digitChar_isDigit (Nat.digits_lt_base (by norm_num) hd)

lemma toDigits_ne_nil (n : Nat) : Nat.toDigits 10 n ≠ [] := by
  by_cases hn : n = 0
  · subst hn; decide
  · have hlt : n < 10 ^ (n + 1) :=
      lt_of_lt_of_le (Nat.lt_pow_self (by norm_num) n)
        (Nat.pow_le_pow_right (by norm_num) (Nat.le_succ n))
    unfold Nat.toDigits
    rw [toDigitsCore_eq (n + 1) n [] hn hlt, List.append_nil]
    simp [hn, Nat.digits_ne_nil_iff_ne_zero]

lemma pyIntOfString_data_cons {s : String} {c : Char} {t : List Char}
    (hdata : pyStrip s.data = c :: t) :
    pyIntOfString s =
      (if c = '-' then
        if t ≠ [] ∧ t.all Char.isDigit = true then some (-(pyDigitsVal t : Int)) else none
      else if c = '+' then
        if t ≠ [] ∧ t.all Char.isDigit = true then some ((pyDigitsVal t : Int)) else none
      else if (c :: t).all Char.isDigit = true then some ((pyDigitsVal (c :: t) : Int))
      else none) := by
  unfold pyIntOfString
  rw [hdata]

lemma pyIntOfString_natRepr (n : Nat) : pyIntOfString (Nat.repr n) = some (n : Int) := by
  have hdata : (Nat.repr n).data = Nat.toDigits 10 n := rfl
  have hall := toDigits_all_digit n
  have hne := toDigits_ne_nil n
  obtain ⟨c, t, hct⟩ := List.exists_cons_of_ne_nil hne
  have hc : c.isDigit = true := by
    rw [List.all_eq_true] at hall
    exact hall c (by rw [hct]; exact List.mem_cons_self c t)
  have hstrip : pyStrip (Nat.repr n).data = c :: t := by
    rw [hdata, pyStrip_digits hne (toDigits_all_digit n), hct]
  rw [pyIntOfString_data_cons hstrip,
    if_neg (isDigit_ne_dash hc), if_neg (isDigit_ne_plus hc),
    if_pos (by rw [← hct]; exact toDigits_all_digit n), ← hct, pyDigitsVal_toDigits]

lemma pyIntOfString_toString (i : Int) : pyIntOfString (toString i) = some i := by
  cases i with
  | ofNat m =>
    have hts : toString (Int.ofNat m) = Nat.repr m := rfl
    rw [hts, pyIntOfString_natRepr]
    rfl
  | negSucc m =>
    have hdata : (toString (Int.negSucc m)).data = '-' :: Nat.toDigits 10 (m + 1) := rfl
    have hstrip : pyStrip (toString (Int.negSucc m)).data = '-' :: Nat.toDigits 10 (m + 1) := by
      rw [hdata, pyStrip_dash_digits (toDigits_ne_nil (m + 1)) (toDigits_all_digit (m + 1))]
    rw [pyIntOfString_data_cons hstrip, if_pos rfl,
      if_pos ⟨toDigits_ne_nil (m + 1), toDigits_all_digit (m + 1)⟩,
      pyDigitsVal_toDigits, Int.negSucc_eq]
    push_cast
    ring_nf

lemma toString_int_ne_empty (i : Int) : ¬ toString i = "" := by
  intro h
  have hd : (toString i).data = [] := by rw [h]
  cases i with
  | ofNat m =>
    exact toDigits_ne_nil m hd
  | negSucc m =>
    have : ('-' :: Nat.toDigits 10 (m + 1)) = [] := hd
    simp at this

/-! ### Store lemmas -/

lemma get_by_id_mem {db : DB} {i : Int} {u : User} (h : get_by_id db i = some u) :
    u ∈ db ∧ u.id = i := by
  refine ⟨List.mem_of_find?_eq_some h, ?_⟩
  have := List.find?_some h
  simpa using this

lemma get_by_id_cons (w : User) (t : DB) (i : Int) :
    get_by_id (w :: t) i = if w.id = i then some w else get_by_id t i := by
  unfold get_by_id
  rw [List.find?_cons]
  by_cases hw : w.id = i
  · have hb : (w.id == i) = true := by simp [hw]
    rw [hb, if_pos hw]
  · have hb : (w.id == i) = false := by simp [hw]
    rw [hb, if_neg hw]

lemma db_update_cons (w : User) (t : DB) (u' : User) :
    db_update (w :: t) u' = if w.id = u'.id then u' :: t else w :: db_update t u' := by
  have h0 : db_update (w :: t) u' =
      if w.id == u'.id then u' :: t else w :: db_update t u' := rfl
  rw [h0]
  by_cases hw : w.id = u'.id
  · rw [if_pos (show (w.id == u'.id) = true by simp [hw]), if_pos hw]
  · rw [if_neg (show ¬ (w.id == u'.id) = true by simp [hw]), if_neg hw]

lemma db_update_self {db : DB} {i : Int} {u : User} (h : get_by_id db i = some u) :
    db_update db u = db := by
  induction db with
  | nil => rfl
  | cons w t ih =>
    rw [get_by_id_cons] at h
    rw [db_update_cons]
    by_cases hw : w.id = i
    · rw [if_pos hw] at h
      cases h
      rw [if_pos rfl]
    · rw [if_neg hw] at h
      have hui : u.id = i := (get_by_id_mem h).2
      rw [if_neg (by rw [hui]; exact hw), ih h]

lemma get_by_id_db_update {db : DB} {i : Int} {u u' : User}
    (h : get_by_id db i = some u) (hid : u'.id = i) :
    get_by_id (db_update db u') i = some u' := by
  induction db with
  | nil => cases h
  | cons w t ih =>
    rw [get_by_id_cons] at h
    rw [db_update_cons]
    by_cases hw : w.id = i
    · rw [if_pos (by rw [hid]; exact hw), get_by_id_cons, if_pos hid]
    · rw [if_neg hw] at h
      rw [if_neg (by rw [hid]; exact hw), get_by_id_cons, if_neg hw]
      exact ih h

lemma get_by_id_db_update_other {db : DB} {i : Int} {u' : User} (hne : ¬ u'.id = i) :
    get_by_id (db_update db u') i = get_by_id db i := by
  induction db with
  | nil => rfl
  | cons w t ih =>
    rw [db_update_cons]
    by_cases hw : w.id = u'.id
    · rw [if_pos hw, get_by_id_cons, get_by_id_cons, if_neg hne,
        if_neg (by rw [hw]; exact hne)]
    · rw [if_neg hw, get_by_id_cons, get_by_id_cons]
      by_cases hwi : w.id = i
      · rw [if_pos hwi, if_pos hwi]
      · rw [if_neg hwi, if_neg hwi]
        exact ih

lemma get_by_id_append {db : DB} {l : DB} {i : Int} {u : User}
    (h : get_by_id db i = some u) : get_by_id (db ++ l) i = some u := by
  induction db with
  | nil => cases h
  | cons w t ih =>
    rw [get_by_id_cons] at h
    rw [List.cons_append, get_by_id_cons]
    by_cases hw : w.id = i
    · rw [if_pos hw] at h
      rw [if_pos hw]
      exact h
    · rw [if_neg hw] at h
      rw [if_neg hw]
      exact ih h

lemma foldl_max_acc_le (db : DB) : ∀ acc : Int, acc ≤ db.foldl (fun m u => max m u.id) acc := by
  induction db with
  | nil => intro acc; simp
  | cons u t ih =>
    intro acc
    rw [List.foldl_cons]
    exact le_trans (le_max_left acc u.id) (ih (max acc u.id))

lemma mem_id_le_foldl {db : DB} {u : User} (hu : u ∈ db) :
    ∀ acc : Int, u.id ≤ db.foldl (fun m w => max m w.id) acc := by
  induction db with
  | nil => cases hu
  | cons w t ih =>
    intro acc
    rw [List.foldl_cons]
    rcases List.mem_cons.mp hu with rfl | hmem
    · exact le_trans (le_max_right acc u.id) (foldl_max_acc_le t _)
    · exact ih hmem (max acc w.id)

lemma mem_id_lt_next_id {db : DB} {u : User} (hu : u ∈ db) : u.id < next_id db := by
  have h := mem_id_le_foldl hu 0
  unfold next_id
  omega

lemma get_by_id_append_fresh {db : DB} {v : User}
    (hv : ∀ u ∈ db, ¬ u.id = v.id) : get_by_id (db ++ [v]) v.id = some v := by
  induction db with
  | nil =>
    unfold get_by_id
    simp
  | cons w t ih =>
    rw [List.cons_append, get_by_id_cons,
      if_neg (hv w (List.mem_cons_self w t))]
    exact ih (fun u hu => hv u (List.mem_cons_of_mem w hu))

/-! ### Decode and endpoint evaluation lemmas -/

lemma decode_verification_token (settings : Settings) (mint now : Nat) (id : Int)
    (h : now < mint + 24 * 3600) :
    jwtDecode (generate_verification_token settings mint id) settings.SECRET_KEY
      settings.JWT_ALGORITHM none now =
      Except.ok { sub := some (toString id), exp := some (mint + 24 * 3600),
                  type := some "verification", aud := none } := by
  have hexp : ¬ (mint + 24 * 3600 ≤ now) := by omega
  simp [jwtDecode, generate_verification_token, jwtCheckAud, hexp]

lemma verify_email_success (settings : Settings) (db : DB) (mint now : Nat) (id : Int)
    (user : User) (hu : get_by_id db id = some user) (h : now < mint + 24 * 3600) :
    verify_email settings db now (generate_verification_token settings mint id) =
      (db_update db { user with is_verified := true }, VerifyResponse.successPage) := by
  unfold verify_email
  rw [decode_verification_token settings mint now id h]
  simp [toString_int_ne_empty id, pyIntOfString_toString, hu]

lemma jwtDecode_expired {tok : Token} {key alg : String} {aud : Option String} {e now : Nat}
    (he : tok.claims.exp = some e) (hle : e ≤ now) :
    ∀ c, ¬ jwtDecode tok key alg aud now = Except.ok c := by
  intro c hok
  simp only [jwtDecode, he] at hok
  by_cases h1 : tok.alg ≠ alg
  · rw [if_pos h1] at hok
    exact Except.noConfusion hok
  · rw [if_neg h1] at hok
    by_cases h2 : tok.key ≠ key
    · rw [if_pos h2] at hok
      exact Except.noConfusion hok
    · rw [if_neg h2, if_pos hle] at hok
      exact Except.noConfusion hok

lemma strategy_session_expired (settings : Settings) (db : DB) (mint : Nat) (id : Int)
    (now : Nat) (h : mint + 3600 ≤ now) :
    jwt_strategy_read_token settings db now
      (create_auth_cookie_response settings mint id).token = none := by
  cases hdec : jwtDecode (create_auth_cookie_response settings mint id).token
      settings.SECRET_KEY settings.JWT_ALGORITHM (some "fastapi-users:auth") now with
  | error e => simp [jwt_strategy_read_token, hdec]
  | ok c => exact absurd hdec (jwtDecode_expired rfl h c)

/-! ### Concrete objects for evaluating the theorems on closed inputs -/

/-- Concrete settings mirroring the test configuration
(`src/tests/test_main.py`). -/
def settings0 : Settings := { SECRET_KEY := "test_secret_key", JWT_ALGORITHM := "HS256" }

/-- A concrete unverified local account. -/
def alice : User :=
  { id := 1, email := "alice@example.com", hashed_password := some "HASHpassword123",
    is_active := true, is_superuser := false, is_verified := false,
    name := some "Alice", picture := none }

/-- A concrete verified account. -/
def bob : User :=
  { id := 2, email := "bob@example.com", hashed_password := some "HASHsecret99",
    is_active := true, is_superuser := false, is_verified := true,
    name := some "Bob", picture := none }

/-- A concrete verified but inactive account. -/
def carol : User :=
  { id := 3, email := "carol@example.com", hashed_password := some "HASHletmein1",
    is_active := false, is_superuser := false, is_verified := true,
    name := none, picture := none }

/-- A concrete inactive, unverified account. -/
def dave : User :=
  { id := 4, email := "dave@example.com", hashed_password := some "HASHhunter22",
    is_active := false, is_superuser := false, is_verified := false,
    name := none, picture := none }

/-- A concrete password verifier for closed evaluations: the stored hash is
the password prefixed with `"HASH"`, and no hash upgrade is pending. -/
def hash0 : String → String := fun p => "HASH" ++ p

/-- The `verify_and_update` model matching `hash0`. -/
def vu0 : String → String → Bool × Option String := fun p h => (h == hash0 p, none)

/-! ### Claim theorems -/

/-- Claim C1 (token round-trip law): validating a token immediately after
minting it succeeds and yields a subject claim equal to `str(id)`.  For the
verification kind: `generate_verification_token(user_id)` presented
unexpired decodes with `type == "verification"` and `sub == str(user_id)`,
and the verify endpoint reports success when the account exists.  For the
session kind (with the default `HS256` algorithm): the cookie token minted
by `create_auth_cookie_response` is read back by the JWT strategy as that
same account. -/
theorem token_round_trip_law (settings : Settings) (db : DB) (mint : Nat) (id : Int)
    (user : User) (hu : get_by_id db id = some user)
    (halg : settings.JWT_ALGORITHM = "HS256") :
    (jwtDecode (generate_verification_token settings mint id) settings.SECRET_KEY
        settings.JWT_ALGORITHM none mint =
      Except.ok { sub := some (toString id), exp := some (mint + 24 * 3600),
                  type := some "verification", aud := none })
    ∧ (verify_email settings db mint (generate_verification_token settings mint id)).2 =
        VerifyResponse.successPage
    ∧ jwt_strategy_read_token settings db mint
        (create_auth_cookie_response settings mint id).token = some user := by
  refine ⟨decode_verification_token settings mint mint id (by omega), ?_, ?_⟩
  · rw [verify_email_success settings db mint mint id user hu (by omega)]
  · unfold jwt_strategy_read_token create_auth_cookie_response generate_jwt jwtDecode jwtCheckAud
    simp [halg, pyIntOfString_toString, hu, show ¬ (mint + 3600 ≤ mint) by omega]

/-- Witness for C1 at concrete inputs. -/
theorem token_round_trip_law_witness :
    (verify_email settings0 [alice] 0 (generate_verification_token settings0 0 1)).2 =
        VerifyResponse.successPage
    ∧ jwt_strategy_read_token settings0 [alice] 0
        (create_auth_cookie_response settings0 0 1).token = some alice := by
  have h := token_round_trip_law settings0 [alice] 0 1 alice (by decide) rfl
  exact ⟨h.2.1, h.2.2⟩

/-- Claim C2 (kind cross-use rejection): a session token (claims `sub` and
`aud`, minted by `create_auth_cookie_response`) presented to the
verification endpoint is rejected with the "Invalid verification token"
outcome and the store is unchanged, and a verification token (claim
`type == "verification"`, no audience) never authenticates as a session
credential through the JWT strategy — at every validation time. -/
theorem kind_cross_use_rejected (settings : Settings) (db : DB) (mintT valT : Nat) (id : Int) :
    verify_email settings db valT (create_auth_cookie_response settings mintT id).token =
      (db, VerifyResponse.errorPage "Invalid verification token")
    ∧ jwt_strategy_read_token settings db valT
        (generate_verification_token settings mintT id) = none := by
  constructor
  · have hdec : ∃ e, jwtDecode (create_auth_cookie_response settings mintT id).token
        settings.SECRET_KEY settings.JWT_ALGORITHM none valT = Except.error e := by
      simp only [create_auth_cookie_response, generate_jwt, jwtDecode, jwtCheckAud]
      split_ifs <;> exact ⟨_, rfl⟩
    obtain ⟨e, he⟩ := hdec
    unfold verify_email
    rw [he]
  · have hdec : ∃ e, jwtDecode (generate_verification_token settings mintT id)
        settings.SECRET_KEY settings.JWT_ALGORITHM (some "fastapi-users:auth") valT =
          Except.error e := by
      simp only [generate_verification_token, jwtDecode, jwtCheckAud]
      split_ifs <;> exact ⟨_, rfl⟩
    obtain ⟨e, he⟩ := hdec
    unfold jwt_strategy_read_token
    rw [he]

/-- Claim C3 (expiry semantics): a verification token's `exp` is its mint
time plus 24 hours; a session token's `exp` is its mint time plus 3600
seconds (and the `auth` cookie max-age is 3600); any token whose `exp` is
strictly exceeded by the current time fails validation; in particular a
session token validated at mint time + 3601 seconds is rejected by its
consumer. -/
theorem token_expiry_semantics :
    (∀ settings mint id, (generate_verification_token settings mint id).claims.exp =
        some (mint + 24 * 3600))
    ∧ (∀ settings mint id,
        (create_auth_cookie_response settings mint id).token.claims.exp = some (mint + 3600)
        ∧ (create_auth_cookie_response settings mint id).max_age = 3600)
    ∧ (∀ (tok : Token) (key alg : String) (aud : Option String) (e now : Nat),
        tok.claims.exp = some e → e < now →
        ∀ c, ¬ jwtDecode tok key alg aud now = Except.ok c)
    ∧ (∀ settings db mint id, jwt_strategy_read_token settings db (mint + 3601)
        (create_auth_cookie_response settings mint id).token = none) := by
  refine ⟨fun settings mint id => rfl, fun settings mint id => ⟨rfl, rfl⟩, ?_, ?_⟩
  · intro tok key alg aud e now he hlt c
    exact jwtDecode_expired he (le_of_lt hlt) c
  · intro settings db mint id
    exact strategy_session_expired settings db mint id (mint + 3601) (by omega)

/-- Witness for C3 at concrete inputs: a session token for subject 42
minted at time 0 carries `exp = 3600` and fails validation at 3601. -/
theorem token_expiry_semantics_witness :
    (create_auth_cookie_response settings0 0 42).token.claims.exp = some 3600
    ∧ (¬ jwtDecode (create_auth_cookie_response settings0 0 42).token
        settings0.SECRET_KEY settings0.JWT_ALGORITHM (some "fastapi-users:auth") 3601 =
        Except.ok (create_auth_cookie_response settings0 0 42).token.claims)
    ∧ jwt_strategy_read_token settings0 [] 3601
        (create_auth_cookie_response settings0 0 42).token = none := by
  refine ⟨(token_expiry_semantics.2.1 settings0 0 42).1, ?_, ?_⟩
  · exact token_expiry_semantics.2.2.1 _ _ _ _ 3600 3601 rfl (by omega) _
  · exact token_expiry_semantics.2.2.2 settings0 [] 0 42

/-- Claim C4 (login gating and check order): the login checks run in the
order password correctness, then active flag, then verified flag.  A
correct password on an inactive account yields "Account is inactive"; a
correct password on an active but unverified account yields the
"verify your email" page; a wrong password (or unknown email, or an
account without a password hash) yields only the generic
"Invalid email or password"; and all checks passing issues the auth
cookie. -/
theorem login_check_order (settings : Settings) (db : DB) (now : Nat)
    (vu : String → String → Bool × Option String) (email password : String) :
    (get_by_email db email = none →
      (login_user settings db now vu email password).2 =
        LoginResponse.errorPage "local_login.html" "Invalid email or password")
    ∧ (∀ user, get_by_email db email = some user → user.hashed_password = none →
      (login_user settings db now vu email password).2 =
        LoginResponse.errorPage "local_login.html" "Invalid email or password")
    ∧ (∀ user h, get_by_email db email = some user → user.hashed_password = some h →
        (vu password h).1 = false →
      (login_user settings db now vu email password).2 =
        LoginResponse.errorPage "local_login.html" "Invalid email or password")
    ∧ (∀ user h, get_by_email db email = some user → user.hashed_password = some h →
        (vu password h).1 = true → user.is_active = false →
      (login_user settings db now vu email password).2 =
        LoginResponse.errorPage "local_login.html" "Account is inactive")
    ∧ (∀ user h, get_by_email db email = some user → user.hashed_password = some h →
        (vu password h).1 = true → user.is_active = true → user.is_verified = false →
      (login_user settings db now vu email password).2 =
        LoginResponse.errorPage "verify.html" "Please verify your email before logging in.")
    ∧ (∀ user h, get_by_email db email = some user → user.hashed_password = some h →
        (vu password h).1 = true → user.is_active = true → user.is_verified = true →
      (login_user settings db now vu email password).2 =
        LoginResponse.loginSuccess (create_auth_cookie_response settings now user.id)) := by
  refine ⟨?_, ?_, ?_, ?_, ?_, ?_⟩
  · intro hnone
    simp [login_user, hnone]
  · intro user hu hh
    simp [login_user, hu, hh]
  · intro user h hu hh hv
    simp [login_user, hu, hh, hv]
  · intro user h hu hh hv ha
    simp [login_user, hu, hh, hv, ha]
  · intro user h hu hh hv ha hver
    simp [login_user, hu, hh, hv, ha, hver]
  · intro user h hu hh hv ha hver
    simp [login_user, hu, hh, hv, ha, hver]

/-- Witness for C4 at concrete inputs: correct password on an inactive
account, correct password on an unverified account, a wrong password, and
a fully successful login. -/
theorem login_check_order_witness :
    (login_user settings0 [carol] 0 vu0 "carol@example.com" "letmein1").2 =
        LoginResponse.errorPage "local_login.html" "Account is inactive"
    ∧ (login_user settings0 [alice] 0 vu0 "alice@example.com" "password123").2 =
        LoginResponse.errorPage "verify.html" "Please verify your email before logging in."
    ∧ (login_user settings0 [bob] 0 vu0 "bob@example.com" "wrongpass").2 =
        LoginResponse.errorPage "local_login.html" "Invalid email or password"
    ∧ (login_user settings0 [bob] 0 vu0 "bob@example.com" "secret99").2 =
        LoginResponse.loginSuccess (create_auth_cookie_response settings0 0 2) := by
  have h1 := (login_check_order settings0 [carol] 0 vu0 "carol@example.com" "letmein1").2.2.2.1
    carol "HASHletmein1" (by decide) rfl (by decide) rfl
  have h2 := (login_check_order settings0 [alice] 0 vu0 "alice@example.com" "password123").2.2.2.2.1
    alice "HASHpassword123" (by decide) rfl (by decide) rfl rfl
  have h3 := (login_check_order settings0 [bob] 0 vu0 "bob@example.com" "wrongpass").2.2.1
    bob "HASHsecret99" (by decide) rfl (by decide)
  have h4 := (login_check_order settings0 [bob] 0 vu0 "bob@example.com" "secret99").2.2.2.2.2
    bob "HASHsecret99" (by decide) rfl (by decide) rfl rfl
  exact ⟨h1, h2, h3, h4⟩

/-- Claim C5 (identity-provider creation postcondition): an account created
through the Google or the Vipps callback when no account with that email
exists has, immediately after creation, `is_verified = true`, no password
hash, `is_active = true`, `is_superuser = false`; and the created row is
retrievable from the store. -/
theorem provider_creation_postcondition (db : DB) (email : String)
    (name picture : Option String) (vname : String)
    (habs : get_by_email db email = none) :
    ((google_upsert db email name picture).2.is_verified = true
      ∧ (google_upsert db email name picture).2.hashed_password = none
      ∧ (google_upsert db email name picture).2.is_active = true
      ∧ (google_upsert db email name picture).2.is_superuser = false
      ∧ get_by_id (google_upsert db email name picture).1
          (google_upsert db email name picture).2.id =
          some (google_upsert db email name picture).2)
    ∧ ((vipps_upsert db email vname).2.is_verified = true
      ∧ (vipps_upsert db email vname).2.hashed_password = none
      ∧ (vipps_upsert db email vname).2.is_active = true
      ∧ (vipps_upsert db email vname).2.is_superuser = false
      ∧ get_by_id (vipps_upsert db email vname).1 (vipps_upsert db email vname).2.id =
          some (vipps_upsert db email vname).2) := by
  have hfresh : ∀ u ∈ db, ¬ u.id = next_id db :=
    fun u hu => ne_of_lt (mem_id_lt_next_id hu)
  have hg : google_upsert db email name picture =
      (db ++ [{ id := next_id db, email := email, hashed_password := none,
                is_active := true, is_verified := true, is_superuser := false,
                name := name, picture := picture }],
       { id := next_id db, email := email, hashed_password := none,
         is_active := true, is_verified := true, is_superuser := false,
         name := name, picture := picture }) := by
    unfold google_upsert
    rw [habs]
  have hv : vipps_upsert db email vname =
      (db ++ [{ id := next_id db, email := email, hashed_password := none,
                is_active := true, is_verified := true, is_superuser := false,
                name := if vname = "" then none else some vname, picture := none }],
       { id := next_id db, email := email, hashed_password := none,
         is_active := true, is_verified := true, is_superuser := false,
         name := if vname = "" then none else some vname, picture := none }) := by
    unfold vipps_upsert
    rw [habs]
  constructor
  · rw [hg]
    exact ⟨rfl, rfl, rfl, rfl, get_by_id_append_fresh hfresh⟩
  · rw [hv]
    exact ⟨rfl, rfl, rfl, rfl, get_by_id_append_fresh hfresh⟩

/-- Witness for C5 at concrete inputs: creating `eve@example.com` through
either provider path on a store that does not contain that email. -/
theorem provider_creation_postcondition_witness :
    (google_upsert [alice] "eve@example.com" (some "Eve") none).2.is_verified = true
    ∧ (google_upsert [alice] "eve@example.com" (some "Eve") none).2.hashed_password = none
    ∧ (vipps_upsert [alice] "eve@example.com" "Eve").2.is_verified = true
    ∧ (vipps_upsert [alice] "eve@example.com" "Eve").2.hashed_password = none := by
  have h := provider_creation_postcondition [alice] "eve@example.com"
    (some "Eve") none "Eve" (by decide)
  exact ⟨h.1.1, h.1.2.1, h.2.1, h.2.2.1⟩

/-- Counterexample to Claim C6 as stated: the Google callback updates an
existing account's `name` and `picture` unconditionally, so a provider
assertion that supplies no value still changes the field — re-resolving
`bob@example.com` with no name and no picture clears the stored name. -/
theorem google_update_overwrites_unsupplied_fields :
    get_by_email [bob] "bob@example.com" = some bob
    ∧ bob.name = some "Bob"
    ∧ (google_upsert [bob] "bob@example.com" none none).2.name = none := by
  refine ⟨by decide, rfl, ?_⟩
  decide

/-- Claim C6 as amended (identity-provider update frame): re-resolving an
existing account via a provider callback changes only the mutable profile
fields — Google overwrites `name` and `picture` unconditionally with the
provider's values (clearing them when the assertion supplies none), while
Vipps updates `name` only when the assertion supplies a non-empty one —
and `is_verified`, `hashed_password`, `id`, `email`, `is_active` and
`is_superuser` are unchanged; in particular `is_verified` is never lowered
and an existing password hash is never overwritten by this path. -/
theorem provider_update_frame (db : DB) (email : String) (name picture : Option String)
    (vname : String) (user : User) (hu : get_by_email db email = some user) :
    ((google_upsert db email name picture).2 = { user with name := name, picture := picture }
      ∧ (google_upsert db email name picture).2.is_verified = user.is_verified
      ∧ (google_upsert db email name picture).2.hashed_password = user.hashed_password
      ∧ (google_upsert db email name picture).2.id = user.id
      ∧ (google_upsert db email name picture).2.email = user.email
      ∧ (google_upsert db email name picture).2.is_active = user.is_active
      ∧ (google_upsert db email name picture).2.is_superuser = user.is_superuser)
    ∧ ((vipps_upsert db email vname).2 =
        (if vname = "" then user else { user with name := some vname })
      ∧ (vipps_upsert db email vname).2.is_verified = user.is_verified
      ∧ (vipps_upsert db email vname).2.hashed_password = user.hashed_password
      ∧ (vipps_upsert db email vname).2.picture = user.picture) := by
  have hg : google_upsert db email name picture =
      (db_update db { user with name := name, picture := picture },
       { user with name := name, picture := picture }) := by
    unfold google_upsert
    rw [hu]
  have hv : vipps_upsert db email vname =
      (db_update db (if vname = "" then user else { user with name := some vname }),
       if vname = "" then user else { user with name := some vname }) := by
    unfold vipps_upsert
    rw [hu]
  constructor
  · rw [hg]
    exact ⟨rfl, rfl, rfl, rfl, rfl, rfl, rfl⟩
  · rw [hv]
    by_cases hn : vname = ""
    · rw [if_pos hn]
      exact ⟨rfl, rfl, rfl, rfl⟩
    · rw [if_neg hn]
      exact ⟨rfl, rfl, rfl, rfl⟩

/-- Witness for the amended C6 at concrete inputs: a Vipps re-resolution
with an empty name leaves the verified account `bob` entirely unchanged,
and a Google re-resolution keeps `is_verified` and the password hash. -/
theorem provider_update_frame_witness :
    (vipps_upsert [bob] "bob@example.com" "").2 = bob
    ∧ (google_upsert [bob] "bob@example.com" (some "Robert") none).2.is_verified = true
    ∧ (google_upsert [bob] "bob@example.com" (some "Robert") none).2.hashed_password =
        some "HASHsecret99" := by
  have h1 := provider_update_frame [bob] "bob@example.com" (some "Robert") none ""
    bob (by decide)
  exact ⟨by rw [h1.2.1]; rfl, by rw [h1.1.2.1]; rfl, by rw [h1.1.2.2.1]; rfl⟩

/-! ### Helper lemmas for terminality of the verified state -/

lemma preserved_of_update_verified {db : DB} {i : Int} {u u' : User}
    (h : get_by_id db i = some u) (hver : u.is_verified = true) (hu' : u'.is_verified = true) :
    ∃ v, get_by_id (db_update db u') i = some v ∧ v.is_verified = true := by
  by_cases hui : u'.id = i
  · exact ⟨u', get_by_id_db_update h hui, hu'⟩
  · refine ⟨u, ?_, hver⟩
    rw [get_by_id_db_update_other hui, h]

lemma preserved_of_update {db : DB} {i : Int} {u user u' : User}
    (hnd : (db.map User.id).Nodup) (h : get_by_id db i = some u) (hver : u.is_verified = true)
    (hmem : user ∈ db) (hid : u'.id = user.id)
    (hverpres : u'.is_verified = user.is_verified) :
    ∃ v, get_by_id (db_update db u') i = some v ∧ v.is_verified = true := by
  by_cases hui : user.id = i
  · have huser : user = u := by
      have hu_mem := (get_by_id_mem h).1
      have hu_id := (get_by_id_mem h).2
      exact List.inj_on_of_nodup_map hnd hmem hu_mem (by rw [hui, hu_id])
    refine ⟨u', get_by_id_db_update h (by rw [hid, hui]), ?_⟩
    rw [hverpres, huser, hver]
  · refine ⟨u, ?_, hver⟩
    rw [get_by_id_db_update_other (by rw [hid]; exact hui), h]

lemma preserved_of_append {db l : DB} {i : Int} {u : User} (h : get_by_id db i = some u)
    (hver : u.is_verified = true) :
    ∃ v, get_by_id (db ++ l) i = some v ∧ v.is_verified = true :=
  ⟨u, get_by_id_append h, hver⟩

lemma verify_email_db_cases (settings : Settings) (db : DB) (now : Nat) (tok : Token) :
    (verify_email settings db now tok).1 = db ∨
    ∃ j w, get_by_id db j = some w ∧
      (verify_email settings db now tok).1 = db_update db { w with is_verified := true } := by
  unfold verify_email
  cases hdec : jwtDecode tok settings.SECRET_KEY settings.JWT_ALGORITHM none now with
  | error e => left; rfl
  | ok payload =>
    by_cases ht : payload.type ≠ some "verification"
    · left; simp [ht]
    · cases hs : payload.sub with
      | none => left; simp [ht, hs]
      | some s =>
        by_cases hse : s = ""
        · left; simp [ht, hs, hse]
        · cases hpi : pyIntOfString s with
          | none => left; simp [ht, hs, hse, hpi]
          | some int_id =>
            cases hgu : get_by_id db int_id with
            | none => left; simp [ht, hs, hse, hpi, hgu]
            | some user =>
              right
              refine ⟨int_id, user, hgu, ?_⟩
              simp [ht, hs, hse, hpi, hgu]

lemma login_user_db_cases (settings : Settings) (db : DB) (now : Nat)
    (vu : String → String → Bool × Option String) (email password : String) :
    (login_user settings db now vu email password).1 = db ∨
    ∃ user nh, get_by_email db email = some user ∧
      (login_user settings db now vu email password).1 =
        db_update db { user with hashed_password := some nh } := by
  unfold login_user
  cases hu : get_by_email db email with
  | none => left; rfl
  | some user =>
    cases hh : user.hashed_password with
    | none => left; simp [hh]
    | some h =>
      by_cases hv : (vu password h).1
      · cases hupd : (vu password h).2 with
        | none =>
          left
          simp only [hh, hv, hupd, not_true_eq_false, if_false]
          split_ifs <;> rfl
        | some nh =>
          right
          refine ⟨user, nh, rfl, ?_⟩
          simp only [hh, hv, hupd, not_true_eq_false, if_false]
          split_ifs <;> rfl
      · left
        simp only [Bool.not_eq_true] at hv
        simp [hh, hv]

lemma google_upsert_db_cases (db : DB) (email : String) (name picture : Option String) :
    (∃ v, (google_upsert db email name picture).1 = db ++ [v]) ∨
    ∃ user, get_by_email db email = some user ∧
      (google_upsert db email name picture).1 =
        db_update db { user with name := name, picture := picture } := by
  unfold google_upsert
  cases hu : get_by_email db email with
  | none => left; exact ⟨_, rfl⟩
  | some user => right; exact ⟨user, rfl, rfl⟩

lemma vipps_upsert_db_cases (db : DB) (email : String) (vname : String) :
    (∃ v, (vipps_upsert db email vname).1 = db ++ [v]) ∨
    ∃ user, get_by_email db email = some user ∧
      (vipps_upsert db email vname).1 =
        db_update db (if vname = "" then user else { user with name := some vname }) := by
  unfold vipps_upsert
  cases hu : get_by_email db email with
  | none => left; exact ⟨_, rfl⟩
  | some user => right; exact ⟨user, rfl, rfl⟩

lemma register_user_db_cases (settings : Settings) (db : DB) (now : Nat)
    (hash : String → String) (email password : String) (name : Option String) :
    (register_user settings db now hash email password name).1 = db ∨
    ∃ v, (register_user settings db now hash email password name).1 = db ++ [v] := by
  by_cases h1 : ¬ email.contains '@'
  · left; simp [register_user, h1]
  · by_cases h2 : password.length < 8
    · left; simp [register_user, h1, h2]
    · cases hu : get_by_email db email with
      | some user => left; simp [register_user, h1, h2, hu]
      | none =>
        right
        have hbody : (register_user settings db now hash email password name).1 =
            db ++ [{ id := next_id db, email := email,
                     hashed_password := some (hash password),
                     is_active := true, is_verified := false, is_superuser := false,
                     name := name, picture := none }] := by
          simp [register_user, h1, h2, hu]
        exact ⟨_, hbody⟩

/-- Claim C7 (verification idempotence and terminality): consuming a valid
unexpired verification token for an already-verified account is a no-op —
it reports success and leaves the store unchanged — and no modelled
operation of this core (verify, login, the Google or Vipps callbacks,
registration, or the request endpoints) ever takes an account from
`is_verified = true` back to `is_verified = false`, given the store's
primary-key uniqueness. -/
theorem verification_idempotent_and_terminal :
    (∀ (settings : Settings) (db : DB) (mint now : Nat) (id : Int) (user : User),
      get_by_id db id = some user → user.is_verified = true → now < mint + 24 * 3600 →
      verify_email settings db now (generate_verification_token settings mint id) =
        (db, VerifyResponse.successPage))
    ∧ (∀ (settings : Settings) (db : DB) (op : Op) (i : Int) (u : User),
        (db.map User.id).Nodup → get_by_id db i = some u → u.is_verified = true →
        ∃ u', get_by_id (apply_op settings db op) i = some u' ∧ u'.is_verified = true) := by
  constructor
  · intro settings db mint now id user hu hver hnow
    rw [verify_email_success settings db mint now id user hu hnow]
    have huser : ({ user with is_verified := true } : User) = user := by
      cases user
      simp_all
    rw [huser, db_update_self hu]
  · intro settings db op i u hnd h hver
    cases op with
    | opVerify now tok =>
      simp only [apply_op]
      rcases verify_email_db_cases settings db now tok with hdb | ⟨j, w, hw, hdb⟩
      · rw [hdb]; exact ⟨u, h, hver⟩
      · rw [hdb]; exact preserved_of_update_verified h hver rfl
    | opLogin now vu email password =>
      simp only [apply_op]
      rcases login_user_db_cases settings db now vu email password with hdb | ⟨user, nh, hu, hdb⟩
      · rw [hdb]; exact ⟨u, h, hver⟩
      · rw [hdb]
        exact preserved_of_update hnd h hver (List.mem_of_find?_eq_some hu) rfl rfl
    | opGoogle email name picture =>
      simp only [apply_op]
      rcases google_upsert_db_cases db email name picture with ⟨v, hdb⟩ | ⟨user, hu, hdb⟩
      · rw [hdb]; exact preserved_of_append h hver
      · rw [hdb]
        exact preserved_of_update hnd h hver (List.mem_of_find?_eq_some hu) rfl rfl
    | opVipps email vname =>
      simp only [apply_op]
      rcases vipps_upsert_db_cases db email vname with ⟨v, hdb⟩ | ⟨user, hu, hdb⟩
      · rw [hdb]; exact preserved_of_append h hver
      · rw [hdb]
        by_cases hn : vname = ""
        · rw [if_pos hn]
          exact preserved_of_update hnd h hver (List.mem_of_find?_eq_some hu) rfl rfl
        · rw [if_neg hn]
          exact preserved_of_update hnd h hver (List.mem_of_find?_eq_some hu) rfl rfl
    | opRegister now hash email password name =>
      simp only [apply_op]
      rcases register_user_db_cases settings db now hash email password name with hdb | ⟨v, hdb⟩
      · rw [hdb]; exact ⟨u, h, hver⟩
      · rw [hdb]; exact preserved_of_append h hver
    | opRequestVerify email =>
      exact ⟨u, h, hver⟩
    | opForgotPassword email =>
      exact ⟨u, h, hver⟩

/-- Witness for C7 at concrete inputs: re-verifying the already-verified
account `bob` succeeds and leaves the store unchanged, and `bob` stays
verified across a concrete re-registration attempt. -/
theorem verification_idempotent_and_terminal_witness :
    verify_email settings0 [bob] 5 (generate_verification_token settings0 0 2) =
      ([bob], VerifyResponse.successPage)
    ∧ ∃ u', get_by_id (apply_op settings0 [bob]
        (Op.opRegister 5 hash0 "bob@example.com" "secret99x" none)) 2 = some u'
        ∧ u'.is_verified = true := by
  constructor
  · exact verification_idempotent_and_terminal.1 settings0 [bob] 0 5 2 bob
      (by decide) rfl (by omega)
  · exact verification_idempotent_and_terminal.2 settings0 [bob]
      (Op.opRegister 5 hash0 "bob@example.com" "secret99x" none) 2 bob
      (by decide) (by decide) rfl

/-- A well-signed, unexpired verification token whose subject claim is not
a numeric string. -/
def tok8 : Token :=
  { claims := { sub := some "abc", exp := some 1000, type := some "verification", aud := none },
    key := "test_secret_key", alg := "HS256" }

/-- Counterexample to Claim C8 as stated: a valid verification token with
the non-numeric subject `"abc"` makes the verify endpoint return the
catch-all "Verification failed" page, which is a distinct outcome from the
uniform "Invalid verification token" message used for the other token
failures. -/
theorem nonnumeric_sub_distinct_outcome :
    (verify_email settings0 [] 0 tok8).2 = VerifyResponse.errorPage "Verification failed"
    ∧ ¬ (verify_email settings0 [] 0 tok8).2 =
        VerifyResponse.errorPage "Invalid verification token" := by
  constructor
  · decide
  · decide

/-- Claim C8 as amended: for every token whose signature and kind are valid
but whose `sub` claim is a non-empty, non-numeric string, the verify
endpoint does not propagate the integer-parse exception — the `ValueError`
escapes the inner `except jwt.PyJWTError` handler and is absorbed by the
outer catch-all, which renders the generic "Verification failed" page (a
distinct message from the "Invalid verification token" outcome of the
other token failures) and leaves the store unchanged. -/
theorem nonnumeric_sub_generic_failure (settings : Settings) (db : DB) (now : Nat)
    (tok : Token) (c : Claims) (s : String)
    (hdec : jwtDecode tok settings.SECRET_KEY settings.JWT_ALGORITHM none now = Except.ok c)
    (ht : c.type = some "verification") (hs : c.sub = some s) (hse : ¬ s = "")
    (hpi : pyIntOfString s = none) :
    verify_email settings db now tok = (db, VerifyResponse.errorPage "Verification failed") := by
  unfold verify_email
  rw [hdec]
  simp [ht, hs, hse, hpi]

/-- Witness for the amended C8 at the concrete token `tok8`. -/
theorem nonnumeric_sub_generic_failure_witness :
    verify_email settings0 [] 0 tok8 = ([], VerifyResponse.errorPage "Verification failed") :=
  nonnumeric_sub_generic_failure settings0 [] 0 tok8
    { sub := some "abc", exp := some 1000, type := some "verification", aud := none } "abc"
    (by rfl) rfl rfl (by decide) (by decide)

/-- Claim C9 evaluated at a failing input (request-stage non-enumeration
is broken): with the send step raising as it does in the source (extra
positional argument — `TypeError`; inactive account — `UserInactive`), the
registered inactive unverified email `dave@example.com` receives the error
page from both request endpoints while the unregistered
`ghost@example.com` receives the uniform message page, so registration
status is distinguishable — contrary to the claim and to the code's own
"Don't reveal if email is registered" comments.  Had the awaited send not
raised, the responses would have been identical, confirming the claim as
the intent. -/
theorem request_stage_enumeration_bug :
    ¬ request_verify_token [dave] actual_send_raises "dave@example.com" =
        request_verify_token [dave] actual_send_raises "ghost@example.com"
    ∧ ¬ forgot_password [dave] actual_send_raises "dave@example.com" =
        forgot_password [dave] actual_send_raises "ghost@example.com"
    ∧ request_verify_token [dave] (fun _ => false) "dave@example.com" =
        request_verify_token [dave] (fun _ => false) "ghost@example.com"
    ∧ forgot_password [dave] (fun _ => false) "dave@example.com" =
        forgot_password [dave] (fun _ => false) "ghost@example.com" :=
  ⟨by decide, by decide, by decide, by decide⟩

/-- Claim C10 (implicit: the verification transition ignores the active
flag): consuming a valid unexpired verification token for an existing
account with `is_active = false` still reports success and persists
`is_verified = true`, with the account remaining inactive — the verify
path never reads `is_active`. -/
theorem verify_ignores_active_flag (settings : Settings) (db : DB) (mint now : Nat)
    (id : Int) (user : User) (hu : get_by_id db id = some user)
    (hina : user.is_active = false) (hnow : now < mint + 24 * 3600) :
    (verify_email settings db now (generate_verification_token settings mint id)).2 =
        VerifyResponse.successPage
    ∧ get_by_id (verify_email settings db now (generate_verification_token settings mint id)).1
        id = some { user with is_verified := true }
    ∧ ({ user with is_verified := true } : User).is_active = false := by
  rw [verify_email_success settings db mint now id user hu hnow]
  exact ⟨rfl, get_by_id_db_update hu (get_by_id_mem hu).2, hina⟩

/-- Witness for C10 at concrete inputs: verifying the inactive, unverified
account `dave`. -/
theorem verify_ignores_active_flag_witness :
    (verify_email settings0 [dave] 0 (generate_verification_token settings0 0 4)).2 =
        VerifyResponse.successPage
    ∧ get_by_id (verify_email settings0 [dave] 0
        (generate_verification_token settings0 0 4)).1 4 =
        some { dave with is_verified := true } := by
  have h := verify_ignores_active_flag settings0 [dave] 0 0 4 dave (by decide) rfl (by omega)
  exact ⟨h.1, h.2.1⟩

end HtmxAuth
